import Mathlib

/-!
Shallow embedding of the command-dispatch and resumable-cursor layer of the
mongo-go-driver excerpt: the change-stream resume state machine
(`mongo/change_stream.go`), the FindOneAndUpdate dispatcher with its
unacknowledged-write fast path (`core/dispatch/find_one_and_update.go`), the
aggregate dispatcher's selector choice (`core/dispatch`, unnamed part), and
index-name generation (`mongo` index view, in `core/auth/x509.go`'s bundle).

External collaborators (topology, connections, cursors, the wire protocol) are
modelled by an explicit environment record supplying the outcome of each
external call, and each modelled operation additionally returns the ordered
trace of external calls it performed, so that ordering claims are statable.
-/

namespace MongoDriver

/-- Errors observable by this layer.  `commandError` models `command.Error`
with its server-reported code; `simpleError` models any other `error` value
(network failures, decode failures, ...), distinguished only by a tag.
The named constructors model the sentinel `errors.New` values declared in the
source: `ErrMissingResumeToken`, `ErrUnacknowledgedWrite`,
`ErrInvalidIndexValue`, `ErrNonStringIndexName`, `ErrMultipleIndexDrop`. -/
inductive GoError where
  | commandError (code : Int)
  | simpleError (tag : Nat)
  | missingResumeToken
  | unacknowledgedWrite
  | invalidIndexValue
  | nonStringIndexName
  | multipleIndexDrop
deriving DecidableEq, Repr

instance {ε α : Type} [DecidableEq ε] [DecidableEq α] : DecidableEq (Except ε α)
  | .error a, .error b => decidable_of_iff (a = b) (by simp)
  | .error _, .ok _ => isFalse (by simp)
  | .ok _, .error _ => isFalse (by simp)
  | .ok a, .ok b => decidable_of_iff (a = b) (by simp)

/-- `const errorCodeNotMaster int32 = 10107` -/
def errorCodeNotMaster : Int := 10107

/-- `const errorCodeCursorNotFound int32 = 43` -/
def errorCodeCursorNotFound : Int := 43

/-- A resume token is the `_id` subdocument of a decoded change document;
its contents are opaque to this layer, so it is modelled by a tag. -/
abbrev Token := Nat

/-- A change-stream option (`options.ChangeStreamOptioner`).  `resumeAfter`
models `options.OptResumeAfter` built by `Opt.ResumeAfter(token)`; the token
is `none` when `cs.resumeToken` is the nil pointer.  All other optioners are
collapsed to a tag. -/
inductive CSOption where
  | resumeAfter (tok : Option Token)
  | otherOpt (tag : Nat)
deriving DecidableEq, Repr

/-- One aggregation pipeline stage.  The change-stream stage is the
`$changeStream` document built by folding `opt.Option(doc)` over the option
list; it is modelled by the option list that produced it.  Every user-supplied
stage is opaque. -/
inductive Stage where
  | changeStreamStage (opts : List CSOption)
  | userStage (tag : Nat)
deriving DecidableEq, Repr

/-- Model of the driver `Cursor` the stream currently owns: its server-side
id, the terminal error reported by `Err()` once iteration stops, and whether
`Close` has been called on it. -/
structure Cursor where
  id : Int
  err : Option GoError
  closed : Bool
deriving DecidableEq, Repr

/-- `type changeStream struct` from `mongo/change_stream.go`.  The `cursor`
field is an interface value in Go and may be nil (modelled by `none`) after a
failed aggregate round trip assigns its result. -/
structure ChangeStream where
  pipeline : List Stage
  options : List CSOption
  cursor : Option Cursor
  resumeToken : Option Token
  err : Option GoError
deriving DecidableEq, Repr

/-- Outcomes of the external calls `changeStream.Next` may perform, supplied
by the environment: whether the current cursor's `Next` yields an element,
the result of `topology.SelectServer` (a server id on success), the result of
`ss.Connection`, the outcome of the best-effort `killCursors.RoundTrip`
(discarded by the source with a blank assignment), the pair assigned by
`aggCmd.RoundTrip` (cursor, error), and whether the replacement cursor's
first `Next` yields an element. -/
structure NextEnv where
  cursorHasNext : Bool
  selectServer : Except GoError Nat
  connection : Except GoError Nat
  killCursorsOutcome : Option GoError
  aggRoundTrip : Option Cursor × Option GoError
  newCursorHasNext : Bool
deriving Repr

/-- Observable steps of one `changeStream.Next` call, in execution order. -/
inductive Event where
  | cursorNext
  | selectServer
  | getConnection
  | killCursors (ids : List Int) (serverId : Nat)
  | rebuildPipeline
  | aggregate (serverId : Nat)
  | newCursorNext
deriving DecidableEq, Repr

/-- The replace-or-append loop of `changeStream.Next` (lines 103-111): scan
`cs.options`, replace the first `OptResumeAfter` and stop, reporting whether
one was found. -/
def replaceResume (r : CSOption) : List CSOption → List CSOption × Bool
  | [] => ([], false)
  | .resumeAfter _ :: rest => (r :: rest, true)
  | .otherOpt t :: rest =>
    (.otherOpt t :: (replaceResume r rest).1, (replaceResume r rest).2)

/-- Lines 102-115 of `changeStream.Next`: build `Opt.ResumeAfter(cs.resumeToken)`,
replace the first resume option in place, append if none was present. -/
def updateResumeOptions (opts : List CSOption) (tok : Option Token) : List CSOption :=
  let r := CSOption.resumeAfter tok
  if (replaceResume r opts).2 then (replaceResume r opts).1
  else (replaceResume r opts).1 ++ [r]

/-- The error classification of `changeStream.Next` lines 95-100: the switch
stops the resume machinery (returns false, surfacing the error through the
cursor) exactly when the error is a `command.Error` whose code is neither
10107 nor 43.  Any non-`command.Error` value falls through the type switch. -/
def stopsWithoutResume : GoError → Bool
  | .commandError c => decide (c ≠ errorCodeNotMaster ∧ c ≠ errorCodeCursorNotFound)
  | _ => false

/-- `changeStream.Next` (lines 80-165), as a function of the environment and
the stream, returning the boolean result, the updated stream, and the trace
of observable steps.  A nil current cursor would be a nil-interface
dereference in Go; a stream built by `newChangeStream` always carries one. -/
def csNext (env : NextEnv) (cs : ChangeStream) : Bool × ChangeStream × List Event :=
  match cs.cursor with
  | none => (false, cs, [])
  | some cur =>
    if env.cursorHasNext then (true, cs, [.cursorNext])
    else
      match cur.err with
      | none => (false, cs, [.cursorNext])
      | some e =>
        if stopsWithoutResume e then (false, cs, [.cursorNext])
        else
          let cs1 : ChangeStream :=
            { cs with options := updateResumeOptions cs.options cs.resumeToken }
          match env.selectServer with
          | .error e2 => (false, { cs1 with err := some e2 }, [.cursorNext, .selectServer])
          | .ok srv =>
            match env.connection with
            | .error e2 =>
              (false, { cs1 with err := some e2 },
                [.cursorNext, .selectServer, .getConnection])
            | .ok _ =>
              let cs2 : ChangeStream :=
                { cs1 with pipeline :=
                    cs1.pipeline.set 0 (.changeStreamStage cs1.options) }
              let cs3 : ChangeStream :=
                { cs2 with cursor := env.aggRoundTrip.1, err := env.aggRoundTrip.2 }
              match env.aggRoundTrip.2 with
              | some _ =>
                (false, cs3,
                  [.cursorNext, .selectServer, .getConnection,
                   .killCursors [cur.id] srv, .rebuildPipeline, .aggregate srv])
              | none =>
                (env.newCursorHasNext, cs3,
                  [.cursorNext, .selectServer, .getConnection,
                   .killCursors [cur.id] srv, .rebuildPipeline, .aggregate srv,
                   .newCursorNext])

/-- `changeStream.Err` (lines 193-199): the stored stream error takes
precedence over the cursor's error. -/
def csErr (cs : ChangeStream) : Option GoError :=
  match cs.err with
  | some e => some e
  | none =>
    match cs.cursor with
    | some cur => cur.err
    | none => none

/-- `changeStream.Close` (lines 201-203) delegates to `cursor.Close`. -/
def csClose (cs : ChangeStream) : ChangeStream :=
  match cs.cursor with
  | some cur => { cs with cursor := some { cur with closed := true } }
  | none => cs

/-- A change document as seen by `DecodeBytes`: an association list of field
names; the `_id` value, when present, is the token stored for resumption. -/
abbrev RawDoc := List (String × Token)

/-- `br.Lookup("_id")` on the modelled document. -/
def lookupId (doc : RawDoc) : Option Token :=
  (doc.find? (fun p => p.1 = "_id")).map Prod.snd

/-- `changeStream.DecodeBytes` (lines 176-191): `docRes` is the outcome of
`cs.cursor.DecodeBytes()`.  On a document lacking `_id` the stream closes
itself and the call reports `ErrMissingResumeToken`; otherwise the `_id`
value becomes the new resume token and the document is returned. -/
def csDecodeBytes (docRes : Except GoError RawDoc) (cs : ChangeStream) :
    Except GoError RawDoc × ChangeStream :=
  match docRes with
  | .error e => (.error e, cs)
  | .ok br =>
    match lookupId br with
    | none => (.error .missingResumeToken, csClose cs)
    | some tok => (.ok br, { cs with resumeToken := some tok })

/-- Number of resume directives in an option list. -/
def countResume (opts : List CSOption) : Nat :=
  opts.countP (fun o => match o with | .resumeAfter _ => true | _ => false)

/-! ## FindOneAndUpdate dispatch (`core/dispatch/find_one_and_update.go`) -/

/-- A write concern; the only attribute this layer inspects is whether it
acknowledges writes. -/
structure WriteConcern where
  acknowledged : Bool
deriving DecidableEq, Repr

/-- One entry of `cmd.Opts`.  `writeConcern` models `options.OptWriteConcern`
with its `Acknowledged` field; everything else is opaque. -/
inductive FAMOption where
  | writeConcern (acknowledged : Bool)
  | otherOpt (tag : Nat)
deriving DecidableEq, Repr

/-- Lines 39-47: when a write-concern override is supplied, convert it with
`writeConcernOption` and append it to `cmd.Opts` — unconditionally. -/
def applyWCOverride (opts : List FAMOption) (wc : Option WriteConcern) : List FAMOption :=
  match wc with
  | none => opts
  | some w => opts ++ [.writeConcern w.acknowledged]

/-- Lines 53-61: scan the option list; the first `OptWriteConcern` found
determines acknowledgement, defaulting to acknowledged. -/
def resolveAcknowledged : List FAMOption → Bool
  | [] => true
  | .writeConcern a :: _ => a
  | .otherOpt _ :: rest => resolveAcknowledged rest

/-- Whether an option list already carries an explicit write-concern option
(the condition the claim attaches to override injection). -/
def containsWC (opts : List FAMOption) : Bool :=
  opts.any (fun o => match o with | .writeConcern _ => true | .otherOpt _ => false)

/-- Result of a FindOneAndUpdate round trip: `empty` is the zero value
`result.FindAndModify{}` returned on the error and unacknowledged paths. -/
inductive FAMRes where
  | empty
  | val (n : Nat)
deriving DecidableEq, Repr

/-- Outcome of `cmd.RoundTrip` as a unit of execution: either it returns a
(result, error) pair or it terminates abnormally (panics). -/
inductive RTOutcome where
  | returns (res : FAMRes) (err : Option GoError)
  | panics (payload : Nat)
deriving DecidableEq, Repr

/-- What the detached goroutine of the unacknowledged path leaves behind:
whether a panic escaped it, whether it closed the connection, and what value
it delivered to the caller. -/
structure DetachedResult where
  propagatedPanic : Option Nat
  connClosed : Bool
  valueDelivered : Option FAMRes
deriving DecidableEq, Repr

/-- Lines 70-76: the detached goroutine.  `defer recover()` contains any
panic; `defer conn.Close()` runs on both normal return and unwinding; the
round trip's result and error are discarded (`_, _ =`), so nothing is
delivered to the caller. -/
def detachedRoundTrip : RTOutcome → DetachedResult
  | .returns _ _ => { propagatedPanic := none, connClosed := true, valueDelivered := none }
  | .panics _ => { propagatedPanic := none, connClosed := true, valueDelivered := none }

/-- Environment of one FindOneAndUpdate dispatch: outcomes of
`topo.SelectServer`, `ss.Connection` and `cmd.RoundTrip`. -/
structure FAMEnv where
  selectServer : Except GoError Nat
  connection : Except GoError Nat
  roundTrip : RTOutcome
deriving Repr

/-- Observable outcome of one FindOneAndUpdate dispatch.  `panicked` marks
the acknowledged path re-raising a round-trip panic to the caller (in which
case `res`/`err` are not returned in Go); `detached` records the behaviour of
the spawned goroutine when one was spawned; `callerClosedConn` and
`callerAwaited` record whether the calling path itself closed the connection
and waited for the round trip. -/
structure FAMOutput where
  res : FAMRes
  err : Option GoError
  panicked : Bool
  detached : Option DetachedResult
  callerClosedConn : Bool
  callerAwaited : Bool
deriving DecidableEq, Repr

/-- `dispatch.FindOneAndUpdate` (lines 23-82): select a server; append the
write-concern override when one was supplied; resolve acknowledgement from
the first write-concern option; acquire a connection; on the unacknowledged
path spawn the detached round trip and return the empty result with
`ErrUnacknowledgedWrite`; otherwise perform the round trip with the
connection closed on every exit. -/
def findOneAndUpdate (env : FAMEnv) (opts : List FAMOption) (wc : Option WriteConcern) :
    FAMOutput :=
  match env.selectServer with
  | .error e =>
    { res := .empty, err := some e, panicked := false, detached := none,
      callerClosedConn := false, callerAwaited := false }
  | .ok _ =>
    let opts1 := applyWCOverride opts wc
    let acknowledged := resolveAcknowledged opts1
    match env.connection with
    | .error e =>
      { res := .empty, err := some e, panicked := false, detached := none,
        callerClosedConn := false, callerAwaited := false }
    | .ok _ =>
      if !acknowledged then
        { res := .empty, err := some .unacknowledgedWrite, panicked := false,
          detached := some (detachedRoundTrip env.roundTrip),
          callerClosedConn := false, callerAwaited := false }
      else
        match env.roundTrip with
        | .returns r e =>
          { res := r, err := e, panicked := false, detached := none,
            callerClosedConn := true, callerAwaited := true }
        | .panics _ =>
          { res := .empty, err := none, panicked := true, detached := none,
            callerClosedConn := true, callerAwaited := true }

/-! ## Aggregate dispatch (unnamed dispatch source, `dispatch.Aggregate`) -/

/-- The two selector arguments of `dispatch.Aggregate`. -/
inductive SelectorKind where
  | readSelector
  | writeSelector
deriving DecidableEq, Repr

/-- Modelled from the spec: `command.Aggregate.HasDollarOut` is declared in
the `core/command` package, which is not part of this excerpt; per the spec
it reports whether the aggregation pipeline contains an output-mutating
(`$out`) stage.  The pipeline is modelled as the list of its stage names. -/
def hasDollarOut (pipeline : List String) : Bool :=
  pipeline.contains "$out"

/-- The selector branch of `dispatch.Aggregate` (its `switch dollarOut`):
the write selector is passed to `topo.SelectServer` exactly when
`cmd.HasDollarOut()` reports an output-mutating stage. -/
def aggregateSelector (pipeline : List String) : SelectorKind :=
  match hasDollarOut pipeline with
  | true => .writeSelector
  | false => .readSelector

/-! ## Index-name generation (`getOrGenerateIndexName`, index-view source) -/

/-- A BSON value as distinguished by the generation switch: `TypeInt32`,
`TypeInt64` and `TypeString` are the handled cases; every other BSON type
(boolean, double, subdocument, ...) takes the `default` branch. -/
inductive BVal where
  | int32 (i : Int)
  | int64 (i : Int)
  | str (s : String)
  | boolean (b : Bool)
  | double (tag : Nat)
  | subdoc (tag : Nat)
deriving DecidableEq, Repr

/-- The value rendering of the generation switch: int32/int64 via
`fmt.Sprintf` with a decimal verb, strings verbatim, anything else is
`ErrInvalidIndexValue` (represented by `none`). -/
def indexValueString : BVal → Option String
  | .int32 i => some (toString i)
  | .int64 i => some (toString i)
  | .str s => some s
  | _ => none

/-- The generation loop (lines 349-394 of the index-view source): elements in
document order, separated by `_`, each rendered as key, `_`, value. -/
def genIndexName : List (String × BVal) → Bool → String → Except GoError String
  | [], _, acc => .ok acc
  | (k, v) :: rest, first, acc =>
    let acc1 := if first then acc else acc ++ "_"
    let acc2 := acc1 ++ k ++ "_"
    match indexValueString v with
    | none => .error .invalidIndexValue
    | some s => genIndexName rest false (acc2 ++ s)

/-- `IndexModel`: the `Keys` document and the optional `Options` document,
each modelled as an association list in document order. -/
structure IndexModel where
  keys : List (String × BVal)
  options : Option (List (String × BVal))
deriving DecidableEq, Repr

/-- `model.Options.LookupErr("name")` on the modelled options document. -/
def lookupName (opts : List (String × BVal)) : Option BVal :=
  (opts.find? (fun p => p.1 = "name")).map Prod.snd

/-- A fixed all-successful environment for concrete runs: server 2 is
selected, connection 5 acquired, the reissued aggregate returns cursor 9
which has a first element. -/
def envAllOk : NextEnv :=
  { cursorHasNext := false, selectServer := .ok 2, connection := .ok 5,
    killCursorsOutcome := none,
    aggRoundTrip := (some { id := 9, err := none, closed := false }, none),
    newCursorHasNext := true }

/-- A concrete stream whose cursor 7 has stopped with error `e` and whose
last captured resume token is `tok`. -/
def streamWith (e : GoError) (tok : Option Token) : ChangeStream :=
  { pipeline := [.changeStreamStage [], .userStage 3],
    options := [.otherOpt 4],
    cursor := some { id := 7, err := some e, closed := false },
    resumeToken := tok, err := none }

/-- `getOrGenerateIndexName` (lines 331-397 of the index-view source): an
explicit `name` option is returned verbatim when it is a string and is
`ErrNonStringIndexName` otherwise; absent an explicit name, the name is
generated from the keys document. -/
def getOrGenerateIndexName (m : IndexModel) : Except GoError String :=
  match m.options with
  | some opts =>
    match lookupName opts with
    | some v =>
      match v with
      | .str s => .ok s
      | _ => .error .nonStringIndexName
    | none => genIndexName m.keys true ""
  | none => genIndexName m.keys true ""

/-! ## Lemmas about the resume-option rewriting -/

theorem stopsWithoutResume_eq_true_iff (e : GoError) :
    stopsWithoutResume e = true ↔
      ∃ c, e = GoError.commandError c ∧
        c ≠ errorCodeNotMaster ∧ c ≠ errorCodeCursorNotFound := by
  cases e <;> simp [stopsWithoutResume]

theorem replaceResume_snd_false (r : CSOption) :
    ∀ opts : List CSOption, (replaceResume r opts).2 = false →
      (replaceResume r opts).1 = opts ∧ countResume opts = 0 := by
  intro opts
  induction opts with
  | nil => intro _; exact ⟨rfl, rfl⟩
  | cons o rest ih =>
    cases o with
    | resumeAfter t => intro h; simp [replaceResume] at h
    | otherOpt t =>
      intro h
      simp only [replaceResume] at h ⊢
      rcases ih h with ⟨h1, h2⟩
      refine ⟨by rw [h1], ?_⟩
      simp [countResume, List.countP_cons] at h2 ⊢
      exact h2

theorem replaceResume_count (tok : Option Token) :
    ∀ opts : List CSOption,
      countResume (replaceResume (.resumeAfter tok) opts).1 ≤
        max 1 (countResume opts) := by
  intro opts
  induction opts with
  | nil => simp [replaceResume, countResume]
  | cons o rest ih =>
    cases o with
    | resumeAfter t =>
      simp [replaceResume, countResume, List.countP_cons]
    | otherOpt t =>
      simp only [replaceResume]
      simp [countResume, List.countP_cons] at ih ⊢
      omega

theorem mem_replaceResume_of_found (r : CSOption) :
    ∀ opts : List CSOption, (replaceResume r opts).2 = true →
      r ∈ (replaceResume r opts).1 := by
  intro opts
  induction opts with
  | nil => intro h; simp [replaceResume] at h
  | cons o rest ih =>
    cases o with
    | resumeAfter t => intro _; simp [replaceResume]
    | otherOpt t =>
      intro h
      simp only [replaceResume] at h ⊢
      simp only [List.mem_cons]
      right
      exact ih h

theorem mem_updateResumeOptions (opts : List CSOption) (tok : Option Token) :
    CSOption.resumeAfter tok ∈ updateResumeOptions opts tok := by
  unfold updateResumeOptions
  cases hf : (replaceResume (.resumeAfter tok) opts).2 with
  | false => simp [hf]
  | true =>
    simp only [hf, if_pos]
    exact mem_replaceResume_of_found _ opts hf

theorem countResume_updateResumeOptions_le (opts : List CSOption) (tok : Option Token)
    (h : countResume opts ≤ 1) : countResume (updateResumeOptions opts tok) ≤ 1 := by
  unfold updateResumeOptions
  cases hf : (replaceResume (.resumeAfter tok) opts).2 with
  | false =>
    rcases replaceResume_snd_false _ opts hf with ⟨h1, h2⟩
    simp only [hf, if_neg, Bool.false_eq_true, not_false_eq_true, h1]
    simp [countResume, List.countP_append] at h2 ⊢
    exact h2
  | true =>
    have hc := replaceResume_count tok opts
    simp only [hf, if_pos]
    omega

/-- Every `changeStream.Next` call leaves the stream in one of three shapes:
untouched; with the resume option rewritten and a selection/connection error
stored; or with the resume option rewritten, the first pipeline stage
replaced, and the cursor/error pair assigned from the aggregate round trip. -/
theorem csNext_state_cases (env : NextEnv) (cs : ChangeStream) :
    (csNext env cs).2.1 = cs
    ∨ (∃ e, (csNext env cs).2.1 =
        { cs with options := updateResumeOptions cs.options cs.resumeToken,
                  err := some e })
    ∨ (csNext env cs).2.1 =
        { cs with
            options := updateResumeOptions cs.options cs.resumeToken,
            pipeline := cs.pipeline.set 0
              (.changeStreamStage (updateResumeOptions cs.options cs.resumeToken)),
            cursor := env.aggRoundTrip.1,
            err := env.aggRoundTrip.2 } := by
  unfold csNext
  cases hc : cs.cursor with
  | none => exact Or.inl rfl
  | some cur =>
    cases h1 : env.cursorHasNext with
    | true => left; simp [h1]
    | false =>
      simp only [h1, Bool.false_eq_true, if_false]
      cases h2 : cur.err with
      | none => exact Or.inl rfl
      | some e =>
        cases h3 : stopsWithoutResume e with
        | true => left; simp [h3]
        | false =>
          simp only [h3, Bool.false_eq_true, if_false]
          cases h4 : env.selectServer with
          | error e2 => right; left; exact ⟨e2, rfl⟩
          | ok srv =>
            cases h5 : env.connection with
            | error e2 => right; left; exact ⟨e2, rfl⟩
            | ok c2 =>
              right; right
              cases h6 : env.aggRoundTrip.2 with
              | none => simp [h6]
              | some e2 => simp [h6]

/-! ## Claim C1 -/

/-- **C1 counterexample**: the claim says that for every error that is not a
command error with code 10107 or 43 — including network failures — no resume
attempt occurs and the stream moves to `Failed`.  On a non-command error
(`simpleError 0`, modelling a network failure) `changeStream.Next` in fact
falls through the type switch and resumes: the aggregate is reissued, the
call succeeds, and no error is stored. -/
theorem csNext_nonCommandError_resumes_counterexample :
    (csNext envAllOk (streamWith (.simpleError 0) (some 1))).1 = true
    ∧ Event.aggregate 2 ∈ (csNext envAllOk (streamWith (.simpleError 0) (some 1))).2.2
    ∧ (csNext envAllOk (streamWith (.simpleError 0) (some 1))).2.1.err = none := by
  decide

/-- **C1 (amended)**: `changeStream.Next` stops without a resume attempt —
returning false with the stream untouched, so the original cursor error is
what `Err` surfaces — exactly when the cursor's error is a server command
error whose code is neither 10107 nor 43; command errors with those codes
*and every error that is not a command error* (network failures included)
proceed to the resume machinery (server re-selection is invoked). -/
theorem csNext_error_classification (env : NextEnv) (cs : ChangeStream)
    (cur : Cursor) (e : GoError) (hc : cs.cursor = some cur)
    (h1 : env.cursorHasNext = false) (h2 : cur.err = some e) :
    ((∃ c, e = GoError.commandError c ∧
        c ≠ errorCodeNotMaster ∧ c ≠ errorCodeCursorNotFound) →
      csNext env cs = (false, cs, [Event.cursorNext])
      ∧ (cs.err = none → csErr cs = some e))
    ∧ ((∀ c, e = GoError.commandError c →
          c = errorCodeNotMaster ∨ c = errorCodeCursorNotFound) →
      Event.selectServer ∈ (csNext env cs).2.2) := by
  constructor
  · rintro ⟨c, hec, hn1, hn2⟩
    have h3 : stopsWithoutResume e = true :=
      (stopsWithoutResume_eq_true_iff e).2 ⟨c, hec, hn1, hn2⟩
    constructor
    · unfold csNext
      rw [hc]
      simp [h1, h2, h3]
    · intro hce
      simp [csErr, hce, hc, h2]
  · intro hres
    have h3 : stopsWithoutResume e = false := by
      cases hs : stopsWithoutResume e with
      | false => rfl
      | true =>
        exfalso
        rcases (stopsWithoutResume_eq_true_iff e).1 hs with ⟨c, hec, hn1, hn2⟩
        rcases hres c hec with h | h
        · exact hn1 h
        · exact hn2 h
    unfold csNext
    rw [hc]
    simp only [h1, Bool.false_eq_true, if_false, h2, h3]
    cases h4 : env.selectServer with
    | error e2 => simp
    | ok srv =>
      cases h5 : env.connection with
      | error e2 => simp
      | ok c2 =>
        cases h6 : env.aggRoundTrip.2 with
        | none => simp [h6]
        | some e2 => simp [h6]

/-- **C1 witness**: the amended classification evaluated at concrete inputs —
a command error with code 99 stops the stream untouched, a command error with
code 43 reaches server re-selection. -/
theorem csNext_error_classification_witness :
    csNext envAllOk (streamWith (.commandError 99) (some 1)) =
      (false, streamWith (.commandError 99) (some 1), [Event.cursorNext])
    ∧ Event.selectServer ∈
        (csNext envAllOk (streamWith (.commandError 43) (some 1))).2.2 := by
  constructor
  · exact ((csNext_error_classification envAllOk
      (streamWith (.commandError 99) (some 1))
      { id := 7, err := some (.commandError 99), closed := false }
      (.commandError 99) rfl rfl rfl).1
        ⟨99, rfl, by decide, by decide⟩).1
  · exact (csNext_error_classification envAllOk
      (streamWith (.commandError 43) (some 1))
      { id := 7, err := some (.commandError 43), closed := false }
      (.commandError 43) rfl rfl rfl).2
        (fun c hcq => Or.inr (GoError.commandError.inj hcq).symm)

/-! ## Claim C2 -/

/-- **C2 counterexample**: the claim says a stream that has never captured a
resume token fails with a missing-resume-token error on a resumable error,
with no resume attempt.  In fact a stream with `resumeToken = nil` hitting
cursor-not-found (code 43) resumes: the aggregate is reissued carrying a
resume directive with an absent token, the call succeeds, and no
missing-resume-token error is reported. -/
theorem csNext_missing_token_resumes_counterexample :
    (csNext envAllOk (streamWith (.commandError 43) none)).1 = true
    ∧ Event.aggregate 2 ∈ (csNext envAllOk (streamWith (.commandError 43) none)).2.2
    ∧ CSOption.resumeAfter none ∈
        (csNext envAllOk (streamWith (.commandError 43) none)).2.1.options
    ∧ csErr (csNext envAllOk (streamWith (.commandError 43) none)).2.1 ≠
        some GoError.missingResumeToken := by
  decide

/-- **C2 (amended)**: on a resumable error `changeStream.Next` always
proceeds to a resume attempt, whether or not a token was ever captured: the
stream's option list afterwards carries a resume directive holding the last
captured token — an absent token when none exists — server re-selection is
invoked, and the only errors the call can store come from the external
selection, connection, or aggregate calls (never a missing-resume-token
failure of its own). -/
theorem csNext_resume_token_optional (env : NextEnv) (cs : ChangeStream)
    (cur : Cursor) (e : GoError) (hc : cs.cursor = some cur)
    (h1 : env.cursorHasNext = false) (h2 : cur.err = some e)
    (h3 : stopsWithoutResume e = false) :
    CSOption.resumeAfter cs.resumeToken ∈ (csNext env cs).2.1.options
    ∧ Event.selectServer ∈ (csNext env cs).2.2
    ∧ ((csNext env cs).2.1.err = none
       ∨ ∃ e2, (csNext env cs).2.1.err = some e2
           ∧ (env.selectServer = .error e2 ∨ env.connection = .error e2
              ∨ env.aggRoundTrip.2 = some e2)) := by
  unfold csNext
  rw [hc]
  simp only [h1, Bool.false_eq_true, if_false, h2, h3]
  cases h4 : env.selectServer with
  | error e2 =>
    refine ⟨mem_updateResumeOptions cs.options cs.resumeToken, by simp, ?_⟩
    exact Or.inr ⟨e2, rfl, Or.inl rfl⟩
  | ok srv =>
    cases h5 : env.connection with
    | error e2 =>
      refine ⟨mem_updateResumeOptions cs.options cs.resumeToken, by simp, ?_⟩
      exact Or.inr ⟨e2, rfl, Or.inr (Or.inl rfl)⟩
    | ok c2 =>
      cases h6 : env.aggRoundTrip.2 with
      | none =>
        refine ⟨?_, by simp [h6], ?_⟩
        · simp only [h6]
          exact mem_updateResumeOptions cs.options cs.resumeToken
        · simp [h6]
      | some e2 =>
        refine ⟨?_, by simp [h6], ?_⟩
        · simp only [h6]
          exact mem_updateResumeOptions cs.options cs.resumeToken
        · simp only [h6]
          exact Or.inr ⟨e2, rfl, Or.inr (Or.inr rfl)⟩

/-- **C2 witness**: the amended theorem evaluated on a concrete tokenless
stream hitting cursor-not-found under an all-successful environment. -/
theorem csNext_resume_token_optional_witness :
    CSOption.resumeAfter none ∈
      (csNext envAllOk (streamWith (.commandError 43) none)).2.1.options
    ∧ Event.selectServer ∈ (csNext envAllOk (streamWith (.commandError 43) none)).2.2
    ∧ ((csNext envAllOk (streamWith (.commandError 43) none)).2.1.err = none
       ∨ ∃ e2,
          (csNext envAllOk (streamWith (.commandError 43) none)).2.1.err = some e2
          ∧ (envAllOk.selectServer = .error e2 ∨ envAllOk.connection = .error e2
             ∨ envAllOk.aggRoundTrip.2 = some e2)) :=
  csNext_resume_token_optional envAllOk (streamWith (.commandError 43) none)
    { id := 7, err := some (.commandError 43), closed := false }
    (.commandError 43) rfl rfl rfl (by decide)

/-! ## Claim C3 -/

/-- **C3 counterexample**: the claim puts the best-effort killCursors round
trip *before* server re-selection.  On a concrete resume (code 10107, all
external calls succeeding) the observable order is re-selection, connection
acquisition, and only then the killCursors round trip — which moreover
targets the freshly selected server 2, not a previous one: `selectServer`
strictly precedes `killCursors` in the trace. -/
theorem csNext_killCursors_order_counterexample :
    (csNext envAllOk (streamWith (.commandError 10107) (some 1))).2.2 =
      [.cursorNext, .selectServer, .getConnection, .killCursors [7] 2,
       .rebuildPipeline, .aggregate 2, .newCursorNext]
    ∧ List.indexOf Event.selectServer
        (csNext envAllOk (streamWith (.commandError 10107) (some 1))).2.2 <
      List.indexOf (Event.killCursors [7] 2)
        (csNext envAllOk (streamWith (.commandError 10107) (some 1))).2.2 := by
  decide

/-- **C3 (amended)**: on every resume the killCursors command is built (with
the dead cursor's id) before re-selection, but its round trip is issued
against the *freshly selected* server after connection acquisition; the
observable order is: reselect → acquire connection → killCursors (ignored) →
rebuild pipeline → reissue aggregate → one more advance (the final advance
only when the aggregate round trip succeeded), and the outcome of the
killCursors round trip has no effect whatsoever on the call. -/
theorem csNext_resume_sequence (env : NextEnv) (cs : ChangeStream)
    (cur : Cursor) (e : GoError) (srv c2 : Nat) (hc : cs.cursor = some cur)
    (h1 : env.cursorHasNext = false) (h2 : cur.err = some e)
    (h3 : stopsWithoutResume e = false) (h4 : env.selectServer = .ok srv)
    (h5 : env.connection = .ok c2) :
    (env.aggRoundTrip.2 = none →
      (csNext env cs).2.2 =
        [.cursorNext, .selectServer, .getConnection, .killCursors [cur.id] srv,
         .rebuildPipeline, .aggregate srv, .newCursorNext])
    ∧ (∀ e2, env.aggRoundTrip.2 = some e2 →
      (csNext env cs).2.2 =
        [.cursorNext, .selectServer, .getConnection, .killCursors [cur.id] srv,
         .rebuildPipeline, .aggregate srv])
    ∧ (∀ k, csNext { env with killCursorsOutcome := k } cs = csNext env cs) := by
  refine ⟨?_, ?_, ?_⟩
  · intro h6
    unfold csNext
    rw [hc]
    simp [h1, h2, h3, h4, h5, h6]
  · intro e2 h6
    unfold csNext
    rw [hc]
    simp [h1, h2, h3, h4, h5, h6]
  · intro k
    rcases env with ⟨a, b, c, k0, d, f⟩
    rfl

/-- **C3 witness**: the amended sequence evaluated on a concrete resume run
(code 10107, server 2 selected, aggregate succeeding). -/
theorem csNext_resume_sequence_witness :
    (csNext envAllOk (streamWith (.commandError 10107) (some 1))).2.2 =
      [.cursorNext, .selectServer, .getConnection, .killCursors [7] 2,
       .rebuildPipeline, .aggregate 2, .newCursorNext] :=
  (csNext_resume_sequence envAllOk (streamWith (.commandError 10107) (some 1))
    { id := 7, err := some (.commandError 10107), closed := false }
    (.commandError 10107) 2 5 rfl rfl rfl (by decide) rfl rfl).1 rfl

/-! ## Claim C4 -/

/-- **C4 counterexample**: the claim says the write-concern override is
injected only when the command carries no explicit write-concern option.  On
a command whose option list already holds an explicit (unacknowledged) write
concern, supplying an acknowledged override still appends it — the resulting
list carries two write-concern options — although acknowledgement does follow
the explicit one. -/
theorem findOneAndUpdate_wc_injection_counterexample :
    applyWCOverride [FAMOption.writeConcern false] (some { acknowledged := true }) =
      [FAMOption.writeConcern false, FAMOption.writeConcern true]
    ∧ resolveAcknowledged
        (applyWCOverride [FAMOption.writeConcern false]
          (some { acknowledged := true })) = false := by
  decide

/-- **C4 (amended)**: a supplied write-concern override is always appended to
the option list, whether or not an explicit write-concern option is present;
precedence of an explicit write concern is nevertheless preserved because
acknowledgement is resolved by scanning for the *first* write-concern option:
when the command already carries one, the appended override leaves
acknowledgement unchanged, and only when it carries none does the override
determine acknowledgement. -/
theorem findOneAndUpdate_wc_precedence (opts : List FAMOption) (w : WriteConcern) :
    applyWCOverride opts (some w) = opts ++ [FAMOption.writeConcern w.acknowledged]
    ∧ (containsWC opts = true →
        resolveAcknowledged (applyWCOverride opts (some w)) = resolveAcknowledged opts)
    ∧ (containsWC opts = false →
        resolveAcknowledged (applyWCOverride opts (some w)) = w.acknowledged) := by
  refine ⟨rfl, ?_, ?_⟩
  · intro h
    unfold applyWCOverride
    induction opts with
    | nil => simp [containsWC] at h
    | cons o rest ih =>
      cases o with
      | writeConcern a => simp [resolveAcknowledged]
      | otherOpt t =>
        simp only [containsWC, List.any_cons, Bool.or_eq_true] at h
        rcases h with h | h
        · simp at h
        · simp only [List.cons_append, resolveAcknowledged]
          exact ih h
  · intro h
    unfold applyWCOverride
    induction opts with
    | nil => simp [resolveAcknowledged]
    | cons o rest ih =>
      cases o with
      | writeConcern a => simp [containsWC] at h
      | otherOpt t =>
        simp only [containsWC, List.any_cons, Bool.or_eq_false_iff] at h
        simp only [List.cons_append, resolveAcknowledged]
        exact ih h.2

/-- **C4 witness**: the amended precedence rule evaluated at concrete option
lists — an explicit unacknowledged option wins over an acknowledged override,
and the override decides when no explicit option exists. -/
theorem findOneAndUpdate_wc_precedence_witness :
    (containsWC [FAMOption.writeConcern false] = true →
      resolveAcknowledged
        (applyWCOverride [FAMOption.writeConcern false] (some { acknowledged := true })) =
      resolveAcknowledged [FAMOption.writeConcern false])
    ∧ (containsWC [FAMOption.otherOpt 9] = false →
      resolveAcknowledged
        (applyWCOverride [FAMOption.otherOpt 9] (some { acknowledged := false })) = false) :=
  ⟨(findOneAndUpdate_wc_precedence [FAMOption.writeConcern false]
      { acknowledged := true }).2.1,
   (findOneAndUpdate_wc_precedence [FAMOption.otherOpt 9]
      { acknowledged := false }).2.2⟩

/-! ## Claim C5 -/

/-- **C5 (confirmed)**: whenever the effective write concern of a
FindOneAndUpdate dispatch resolves to unacknowledged (after server selection
and connection acquisition succeed), the call returns the empty result with
the sentinel `ErrUnacknowledgedWrite`, does not wait for the round trip, and
does not close the connection itself; the detached unit of execution —
whatever the round trip does, including panicking — propagates no panic,
delivers no value, and closes the connection. -/
theorem findOneAndUpdate_unacknowledged_fast_path (env : FAMEnv)
    (opts : List FAMOption) (wc : Option WriteConcern) (s c : Nat)
    (hs : env.selectServer = .ok s) (hc : env.connection = .ok c)
    (hack : resolveAcknowledged (applyWCOverride opts wc) = false) :
    (findOneAndUpdate env opts wc).res = .empty
    ∧ (findOneAndUpdate env opts wc).err = some .unacknowledgedWrite
    ∧ (findOneAndUpdate env opts wc).panicked = false
    ∧ (findOneAndUpdate env opts wc).callerAwaited = false
    ∧ (findOneAndUpdate env opts wc).callerClosedConn = false
    ∧ (findOneAndUpdate env opts wc).detached = some (detachedRoundTrip env.roundTrip)
    ∧ ∀ rt : RTOutcome, detachedRoundTrip rt =
        { propagatedPanic := none, connClosed := true, valueDelivered := none } := by
  have hbody : findOneAndUpdate env opts wc =
      { res := .empty, err := some .unacknowledgedWrite, panicked := false,
        detached := some (detachedRoundTrip env.roundTrip),
        callerClosedConn := false, callerAwaited := false } := by
    unfold findOneAndUpdate
    rw [hs]
    simp only [hc, hack, Bool.not_false, if_true]
  refine ⟨?_, ?_, ?_, ?_, ?_, ?_, ?_⟩
  · rw [hbody]
  · rw [hbody]
  · rw [hbody]
  · rw [hbody]
  · rw [hbody]
  · rw [hbody]
  · intro rt; cases rt <;> rfl

/-- **C5 witness**: the fast path evaluated on a concrete dispatch whose
effective write concern is an explicit unacknowledged option, with a
panicking round trip in the detached unit. -/
theorem findOneAndUpdate_unacknowledged_fast_path_witness :
    (findOneAndUpdate
      { selectServer := .ok 1, connection := .ok 4, roundTrip := .panics 8 }
      [FAMOption.writeConcern false] none).err = some .unacknowledgedWrite :=
  (findOneAndUpdate_unacknowledged_fast_path
    { selectServer := .ok 1, connection := .ok 4, roundTrip := .panics 8 }
    [FAMOption.writeConcern false] none 1 4 rfl rfl (by decide)).2.1

/-! ## Claim C6 -/

/-- **C6 (confirmed)**: for every document successfully decoded from the
active cursor, `DecodeBytes` stores the document's `_id` as the new resume
token in the stream it returns alongside the document; when the `_id` field
is missing, the stream closes itself (its cursor is marked closed) and the
call returns `ErrMissingResumeToken` instead of the document, leaving the
resume token unchanged. -/
theorem changeStream_decodeBytes_token_contract (cs : ChangeStream) (doc : RawDoc) :
    (∀ tok, lookupId doc = some tok →
      csDecodeBytes (.ok doc) cs = (.ok doc, { cs with resumeToken := some tok }))
    ∧ (lookupId doc = none →
      csDecodeBytes (.ok doc) cs = (.error .missingResumeToken, csClose cs)
      ∧ (csClose cs).resumeToken = cs.resumeToken
      ∧ ∀ cur, cs.cursor = some cur →
          (csClose cs).cursor = some { cur with closed := true }) := by
  constructor
  · intro tok h
    simp [csDecodeBytes, h]
  · intro h
    refine ⟨?_, ?_, ?_⟩
    · simp [csDecodeBytes, h]
    · unfold csClose
      cases cs.cursor <;> rfl
    · intro cur hcur
      unfold csClose
      rw [hcur]

/-- **C6 witness**: the decoding contract evaluated on concrete documents —
one carrying `_id` (token 5) and one lacking it. -/
theorem changeStream_decodeBytes_token_contract_witness :
    csDecodeBytes (.ok [("_id", 5), ("op", 0)])
        (streamWith (.simpleError 0) none) =
      (.ok [("_id", 5), ("op", 0)],
       { streamWith (.simpleError 0) none with resumeToken := some 5 })
    ∧ csDecodeBytes (.ok [("op", 0)]) (streamWith (.simpleError 0) (some 1)) =
      (.error .missingResumeToken, csClose (streamWith (.simpleError 0) (some 1))) :=
  ⟨(changeStream_decodeBytes_token_contract (streamWith (.simpleError 0) none)
      [("_id", 5), ("op", 0)]).1 5 rfl,
   ((changeStream_decodeBytes_token_contract (streamWith (.simpleError 0) (some 1))
      [("op", 0)]).2 rfl).1⟩

/-! ## Claim C7 -/

/-- **C7 (confirmed)**: every `changeStream.Next` call preserves the
at-most-one-resume-directive invariant of the option list (an existing
directive is replaced in place, a new one appended only if none is present),
and rewrites only the pipeline's first stage: the pipeline's length and every
stage at a positive index are unchanged, across any number of resumes. -/
theorem csNext_resume_invariants (env : NextEnv) (cs : ChangeStream) :
    (countResume cs.options ≤ 1 → countResume (csNext env cs).2.1.options ≤ 1)
    ∧ (csNext env cs).2.1.pipeline.length = cs.pipeline.length
    ∧ ∀ i, 0 < i →
        (csNext env cs).2.1.pipeline.get? i = cs.pipeline.get? i := by
  rcases csNext_state_cases env cs with h | ⟨e, h⟩ | h
  · rw [h]; exact ⟨fun hh => hh, rfl, fun i _ => rfl⟩
  · rw [h]
    exact ⟨fun hh => countResume_updateResumeOptions_le _ _ hh, rfl, fun i _ => rfl⟩
  · rw [h]
    refine ⟨fun hh => countResume_updateResumeOptions_le _ _ hh, ?_, ?_⟩
    · simp
    · intro i hi
      exact List.get?_set_ne _ cs.pipeline (by omega)

/-- **C7 witness**: the invariants evaluated on a concrete resume of a
stream whose option list has no resume directive yet: afterwards it has
exactly one, and the second pipeline stage is untouched. -/
theorem csNext_resume_invariants_witness :
    countResume (csNext envAllOk (streamWith (.commandError 43) (some 1))).2.1.options ≤ 1
    ∧ (csNext envAllOk (streamWith (.commandError 43) (some 1))).2.1.pipeline.get? 1 =
        (streamWith (.commandError 43) (some 1)).pipeline.get? 1 :=
  ⟨(csNext_resume_invariants envAllOk (streamWith (.commandError 43) (some 1))).1
      (by decide),
   (csNext_resume_invariants envAllOk (streamWith (.commandError 43) (some 1))).2.2 1
      (by decide)⟩

/-! ## Claim C8 -/

/-- **C8 (confirmed)**: `dispatch.Aggregate` selects the server with the
write-policy selector exactly when the command's pipeline contains a `$out`
stage, and with the read-policy selector exactly when it does not
(`HasDollarOut` modelled from the spec, see `hasDollarOut`). -/
theorem aggregate_selector_policy (pipeline : List String) :
    (aggregateSelector pipeline = .writeSelector ↔ "$out" ∈ pipeline)
    ∧ (aggregateSelector pipeline = .readSelector ↔ "$out" ∉ pipeline) := by
  unfold aggregateSelector hasDollarOut
  by_cases hmem : "$out" ∈ pipeline
  · have ht : pipeline.contains "$out" = true := by
      exact List.elem_iff.2 hmem
    rw [ht]
    simp [hmem]
  · have hf : pipeline.contains "$out" = false := by
      cases hq : pipeline.contains "$out" with
      | false => rfl
      | true => exact absurd (List.elem_iff.1 hq) hmem
    rw [hf]
    simp [hmem]

/-- **C8 witness**: the selector policy evaluated on concrete pipelines with
and without a `$out` stage. -/
theorem aggregate_selector_policy_witness :
    aggregateSelector ["$match", "$out"] = .writeSelector
    ∧ aggregateSelector ["$match", "$project"] = .readSelector :=
  ⟨(aggregate_selector_policy ["$match", "$out"]).1.2 (by decide),
   (aggregate_selector_policy ["$match", "$project"]).2.2 (by decide)⟩

/-! ## Claim C9 -/

theorem genIndexName_invalid :
    ∀ (keys : List (String × BVal)) (first : Bool) (acc : String),
      (∃ p ∈ keys, indexValueString p.2 = none) →
      genIndexName keys first acc = .error .invalidIndexValue := by
  intro keys
  induction keys with
  | nil =>
    intro first acc h
    rcases h with ⟨p, hp, _⟩
    simp at hp
  | cons kv rest ih =>
    intro first acc h
    rcases kv with ⟨k, v⟩
    rcases h with ⟨p, hp, hv⟩
    rcases List.mem_cons.1 hp with rfl | hmem
    · simp only [genIndexName, hv]
    · unfold genIndexName
      cases hval : indexValueString v with
      | none => rfl
      | some s => exact ih false _ ⟨p, hmem, hv⟩

/-- **C9 (confirmed)**: index-name generation is deterministic in the key
document — keys `{"a": 1, "b": "text"}` yield exactly `"a_1_b_text"`; any
key whose value is neither a string nor numeric (a boolean or a subdocument)
makes generation fail with `ErrInvalidIndexValue`; and an options document
whose `name` entry is not a string fails with `ErrNonStringIndexName`. -/
theorem getOrGenerateIndexName_contract :
    getOrGenerateIndexName
      { keys := [("a", .int32 1), ("b", .str "text")], options := none } =
      .ok "a_1_b_text"
    ∧ (∀ keys : List (String × BVal),
        (∃ p ∈ keys, (∃ b, p.2 = BVal.boolean b) ∨ (∃ t, p.2 = BVal.subdoc t)) →
        getOrGenerateIndexName { keys := keys, options := none } =
          .error .invalidIndexValue)
    ∧ (∀ (m : IndexModel) (opts : List (String × BVal)) (v : BVal),
        m.options = some opts → lookupName opts = some v → (∀ s, v ≠ .str s) →
        getOrGenerateIndexName m = .error .nonStringIndexName) := by
  refine ⟨rfl, ?_, ?_⟩
  · intro keys h
    rcases h with ⟨p, hp, hshape⟩
    have hv : indexValueString p.2 = none := by
      rcases hshape with ⟨b, hb⟩ | ⟨t, ht⟩
      · rw [hb]; rfl
      · rw [ht]; rfl
    unfold getOrGenerateIndexName
    exact genIndexName_invalid keys true "" ⟨p, hp, hv⟩
  · intro m opts v h1 h2 h3
    cases v with
    | str s => exact absurd rfl (h3 s)
    | int32 i => simp [getOrGenerateIndexName, h1, h2]
    | int64 i => simp [getOrGenerateIndexName, h1, h2]
    | boolean b => simp [getOrGenerateIndexName, h1, h2]
    | double t => simp [getOrGenerateIndexName, h1, h2]
    | subdoc t => simp [getOrGenerateIndexName, h1, h2]

/-- **C9 witness**: the contract evaluated at the concrete inputs of the
claim — the two-key document, a boolean key value, and a non-string `name`
option. -/
theorem getOrGenerateIndexName_contract_witness :
    getOrGenerateIndexName
      { keys := [("a", .int32 1), ("b", .str "text")], options := none } =
      .ok "a_1_b_text"
    ∧ getOrGenerateIndexName
        { keys := [("a", .boolean true)], options := none } =
        .error .invalidIndexValue
    ∧ getOrGenerateIndexName
        { keys := [("a", .int32 1)], options := some [("name", .int32 7)] } =
        .error .nonStringIndexName :=
  ⟨getOrGenerateIndexName_contract.1,
   getOrGenerateIndexName_contract.2.1 [("a", .boolean true)]
     ⟨("a", .boolean true), by decide, Or.inl ⟨true, rfl⟩⟩,
   getOrGenerateIndexName_contract.2.2
     { keys := [("a", .int32 1)], options := some [("name", .int32 7)] }
     [("name", .int32 7)] (.int32 7) rfl rfl (fun s h => by cases h)⟩

/-! ## Claim C10 -/

/-- **C10 (confirmed)**: when server re-selection or connection acquisition
fails during a resume attempt, `changeStream.Next` returns false without
reissuing the aggregate, leaves the stream's cursor unchanged, stores the
selection/connection error, and `Err` then reports exactly that stored error
— taking precedence over the cursor's own error. -/
theorem csNext_resume_failure_surfaces (env : NextEnv) (cs : ChangeStream)
    (cur : Cursor) (e f : GoError) (hc : cs.cursor = some cur)
    (h1 : env.cursorHasNext = false) (h2 : cur.err = some e)
    (h3 : stopsWithoutResume e = false)
    (hf : env.selectServer = .error f
          ∨ ∃ s, env.selectServer = .ok s ∧ env.connection = .error f) :
    (csNext env cs).1 = false
    ∧ (csNext env cs).2.1.cursor = cs.cursor
    ∧ (∀ s, Event.aggregate s ∉ (csNext env cs).2.2)
    ∧ (csNext env cs).2.1.err = some f
    ∧ csErr (csNext env cs).2.1 = some f := by
  unfold csNext
  rw [hc]
  simp only [h1, Bool.false_eq_true, if_false, h2, h3]
  rcases hf with h4 | ⟨s, h4, h5⟩
  · rw [h4]
    exact ⟨rfl, rfl, by simp, rfl, rfl⟩
  · rw [h4, h5]
    exact ⟨rfl, rfl, by simp, rfl, rfl⟩

/-- **C10 witness**: a concrete resume attempt whose server selection fails
with a network error distinct from the cursor's error; the stored error is
the selection error and `Err` reports it. -/
theorem csNext_resume_failure_surfaces_witness :
    (csNext { envAllOk with selectServer := .error (.simpleError 9) }
        (streamWith (.commandError 43) (some 1))).1 = false
    ∧ csErr (csNext { envAllOk with selectServer := .error (.simpleError 9) }
        (streamWith (.commandError 43) (some 1))).2.1 = some (.simpleError 9) :=
  ⟨(csNext_resume_failure_surfaces
      { envAllOk with selectServer := .error (.simpleError 9) }
      (streamWith (.commandError 43) (some 1))
      { id := 7, err := some (.commandError 43), closed := false }
      (.commandError 43) (.simpleError 9) rfl rfl rfl (by decide)
      (Or.inl rfl)).1,
   (csNext_resume_failure_surfaces
      { envAllOk with selectServer := .error (.simpleError 9) }
      (streamWith (.commandError 43) (some 1))
      { id := 7, err := some (.commandError 43), closed := false }
      (.commandError 43) (.simpleError 9) rfl rfl rfl (by decide)
      (Or.inl rfl)).2.2.2.2⟩

end MongoDriver
